import Mathlib

/-!
Verification development for the bpftrace compiler front end
(AST, lazy type resolution, diagnostics, pass manager and
representative passes).  Each C++ source construct referenced by a
theorem is shallowly embedded as an executable Lean definition; the
theorems settle the stated behavioural properties against these
definitions.
-/

namespace Bpftrace

/-- Source locations (`location` from `location.hh`) are opaque for every
property below; we model them by a numeric identifier. -/
abbrev Location := Nat

/-- `Diagnostic` from `src/ast/error.h`: one message with an optional
source location. -/
structure Diagnostic where
  msg : String
  loc : Option Location
deriving DecidableEq, Repr

/-- `JumpType` from `src/ast/ast.h`. -/
inductive JumpType where
  | invalid
  | ret
  | continueJump
  | breakJump
deriving DecidableEq, Repr

/-- `Operator` from `src/ast/ast.h`. -/
inductive Operator where
  | invalid
  | assign
  | eq
  | ne
  | le
  | ge
  | leftShift
  | rightShift
  | lt
  | gt
  | land
  | lor
  | plus
  | increment
  | decrement
  | minus
  | mul
  | div
  | mod
  | band
  | bor
  | bxor
  | lnot
  | bnot
deriving DecidableEq, Repr

/-- `SizedType` (declared in `types.h`, used throughout `src/ast`): the
resolved type of an expression.  Only the structure exercised by the
type-resolution code under `src/` is represented: void, sized integers,
strings, pointers and records with named, ordered fields. -/
inductive SizedType where
  | voidTy
  | intTy (bits : Nat)
  | stringTy (len : Nat)
  | pointer (pointee : SizedType)
  | record (name : String) (fields : List (String × SizedType))

namespace SizedType

/-- `SizedType::IsRecordTy`. -/
def isRecordTy : SizedType → Bool
  | .record _ _ => true
  | _ => false

/-- `SizedType::IsVoidTy`. -/
def isVoidTy : SizedType → Bool
  | .voidTy => true
  | _ => false

/-- `SizedType::HasField(name)`: the record has a field of that name. -/
def hasField : SizedType → String → Bool
  | .record _ fields, f => fields.any (fun p => p.1 == f)
  | _, _ => false

/-- `SizedType::GetField(name).type`: the type of the named field.  The
C++ accessor has no defined result when the field is absent, hence the
`Option`. -/
def getFieldType : SizedType → String → Option SizedType
  | .record _ fields, f => (fields.find? (fun p => p.1 == f)).map (fun p => p.2)
  | _, _ => none

/-- Rendering used when a `SizedType` is streamed into an error message
(`operator<<` for `SizedType`). -/
def render : SizedType → String
  | .voidTy => "void"
  | .intTy bits => "int" ++ toString bits
  | .stringTy len => "string[" ++ toString len ++ "]"
  | .pointer p => render p ++ " *"
  | .record name _ => name

end SizedType

/-! ## Lazy type resolution (`Expression::FutureType`, src/ast/ast.h)

`FutureType::Rval` is `std::variant<std::string, SizedType>`: either an
error message or a resolved type. -/

/-- `FutureType::Rval`. -/
inductive Rval where
  | err (msg : String)
  | ty (t : SizedType)

/-- The mutable state of one `FutureType` object: the `running_` flag,
the memo cell `result_`, and — as a pure observation channel that does
not influence behaviour — `calls`, the number of times the stored
computation `fn_` has been invoked so far. -/
structure FState where
  running : Bool
  result : Option Rval
  calls : Nat

/-- The state of a freshly constructed `FutureType(fn)`. -/
def FState.initial : FState := { running := false, result := none, calls := 0 }

/-- `FutureType::valid()` from src/ast/ast.h, translated statement by
statement.  The stored computation `fn_` is modelled as a function from
the invocation count to the produced `Rval`, so that re-evaluation is
observable.  Two source details are preserved exactly:

* on re-entry (`running_ == true`) the source executes
  `return "recursive type inferrence; cannot be resolved";` inside a
  function returning `bool`; the string literal decays to a non-null
  pointer and converts to `true`, so the call reports success and
  stores nothing;
* the guard `if (!result_ || std::holds_alternative<std::string>(*result_))`
  re-runs `fn_` whenever the memo cell is empty *or holds an error*,
  so only successful results are memoized.

The returned `Bool` is `std::holds_alternative<SizedType>(*result_)`
(or the converted literal on the re-entrant path). -/
def FutureType.valid (fn : Nat → Rval) (s : FState) : Bool × FState :=
  if s.running then
    (true, s)
  else
    match s.result with
    | some (.ty _) => (true, s)
    | _ =>
      let r := fn s.calls
      ((match r with | .ty _ => true | .err _ => false),
       { running := false, result := some r, calls := s.calls + 1 })

/-! ## `FieldAccess::type()` (src/ast/ast.cpp)

The thunk body receives the operand's already-resolved `Rval` and the
field name.  `none` models the path on which the source calls
`SizedType::GetField` for a field the record does not contain, which has
no defined result. -/

/-- The body of the `FieldAccess::type()` thunk, translated from
src/ast/ast.cpp.  Branches in source order: operand error propagates;
non-record operand produces an error; then the source tests
`if (t.HasField(field))` and produces the "not found" error on *that*
branch, falling through to `t.GetField(field).type` when the field is
absent. -/
def fieldAccessType (exprRes : Rval) (field : String) : Option Rval :=
  match exprRes with
  | .err e => some (.err e)
  | .ty t =>
    if !t.isRecordTy then
      some (.err ("field access on non-record type " ++ t.render))
    else if t.hasField field then
      some (.err ("field " ++ field ++ "not found on type " ++ t.render))
    else
      (t.getFieldType field).map .ty

/-! ## The syntax tree (src/ast/ast.h)

Expressions and statements are embedded as inductive sum types mirroring
the node classes; child slots appear in declaration order.  Fields that
no analysed pass reads (source locations on expressions, the
`is_literal` / back-reference flags, watchpoint details on attach
points) are omitted. -/

/-- The expression node classes of src/ast/ast.h. -/
inductive Expr where
  | integer (n : Int)
  | positionalParameter (n : Int)
  | stringLit (s : String)
  | stackMode (mode : String)
  | identifier (ident : String)
  | builtin (ident : String)
  | call (func : String) (vargs : List Expr)
  | sizeofExpr (arg : Option Expr)
  | offsetofExpr (arg : Option Expr) (field : String)
  | mapAcc (ident : String) (keyExpr : Option Expr)
  | varAcc (ident : String)
  | binop (left : Expr) (op : Operator) (right : Expr)
  | unop (op : Operator) (e : Expr)
  | fieldAcc (e : Expr) (field : String)
  | arrayAcc (e : Expr) (indexpr : Expr)
  | cast (ty : SizedType) (e : Expr)
  | tuple (elems : List Expr)
  | ternary (cond : Expr) (left : Expr) (right : Expr)

/-- The statement node classes of src/ast/ast.h.  A `Block` owns its
ordered statement list; `If` owns two blocks (a one-sided `if` carries
an empty else block). -/
inductive Stmt where
  | exprStmt (e : Expr)
  | varDecl (ident : String)
  | assignMap (mapIdent : String) (mapKey : Option Expr) (e : Expr)
  | assignVar (varIdent : String) (e : Expr)
  | assignConfigVar (configVar : String) (e : Expr)
  | block (stmts : List Stmt)
  | ifStmt (cond : Expr) (ifBlock : List Stmt) (elseBlock : List Stmt)
  | unroll (e : Expr) (body : List Stmt)
  | jump (ident : JumpType) (returnValue : Option Expr)
  | whileStmt (cond : Expr) (body : List Stmt)
  | forStmt (decl : String) (e : Expr) (body : List Stmt)
  | config (stmts : List Stmt)

/-- `AttachPoint` from src/ast/ast.h (the fields the portability pass
reads). -/
structure AttachPoint where
  provider : String
  target : String := ""
  func : String := ""

/-- `Probe` from src/ast/ast.h. -/
structure Probe where
  attachPoints : List AttachPoint
  pred : Option Expr
  blockStmts : List Stmt

/-- `Subprog` from src/ast/ast.h: a named, typed user function. -/
structure Subprog where
  name : String
  returnType : SizedType
  args : List (String × SizedType)
  stmts : List Stmt
  loc : Location := 0

/-- `Program` from src/ast/ast.h. -/
structure Program where
  functions : List Subprog
  probes : List Probe
  configStmts : List Stmt := []

/-! ## Return-path analysis (src/ast/passes/return_path_analyser.cpp)

`ReturnPathAnalyser` is a `Visitor<ReturnPathAnalyser, bool>` overriding
only `Program`, `Subprog`, `Jump` and `If`.  For every other statement
kind the generic visitor returns the default value `bool() = false`
(the default `visit` bodies in src/ast/visitor.h only recurse and
`merge` keeps the first sub-result, which for expression children is
again the default `false`). -/

mutual

/-- Dispatch of `ReturnPathAnalyser::visit` on one statement:
`visit(Jump)` returns whether the jump is a `RETURN`; `visit(If)` first
scans the if-block (`result` becomes true if any statement returns),
bails out if it stays false, then scans the else-block the same way;
every non-overridden statement yields the visitor default `false`. -/
def returnPathStmt : Stmt → Bool
  | .jump ident _ => ident == JumpType.ret
  | .ifStmt _ ifBlock elseBlock =>
    if returnPathStmts ifBlock then
      returnPathStmts elseBlock
    else
      false
  | _ => false

/-- The `for` loops of `visit(Subprog)` and `visit(If)` over a statement
list: true as soon as one statement's visit returns true. -/
def returnPathStmts : List Stmt → Bool
  | [] => false
  | s :: rest => returnPathStmt s || returnPathStmts rest

end

/-- `ReturnPathAnalyser::visit(Subprog)`: void subprograms are accepted
outright; otherwise at least one statement of the body must return,
else the location-tagged diagnostic is emitted. -/
def returnPathSubprog (sp : Subprog) : Bool × List Diagnostic :=
  if sp.returnType.isVoidTy then
    (true, [])
  else if returnPathStmts sp.stmts then
    (true, [])
  else
    (false, [{ msg := "Not all code paths returned a value", loc := some sp.loc }])

/-- `ReturnPathAnalyser::visit(Program)`: analyse each subprogram in
order, stopping at the first failure. -/
def returnPathProgram : List Subprog → Bool × List Diagnostic
  | [] => (true, [])
  | sp :: rest =>
    let r := returnPathSubprog sp
    if r.1 then returnPathProgram rest else r

mutual

/-- The specification's structural return-path property, written from
its words: a return jump satisfies the property; an if-statement
satisfies it only if both branches do; no other statement kind
satisfies it. -/
def specStmtReturns : Stmt → Bool
  | .jump .ret _ => true
  | .ifStmt _ ifBlock elseBlock => specStmtsReturn ifBlock && specStmtsReturn elseBlock
  | _ => false

/-- The specification's rule for a statement list: it satisfies the
property if any statement in it does. -/
def specStmtsReturn : List Stmt → Bool
  | [] => false
  | s :: rest => specStmtReturns s || specStmtsReturn rest

end

/-! ## Auto-print rewriting (src/ast/passes/auto_print.cpp)

`AutoPrintAnalyser` overrides only `visit(ExprStatement)`: a statement
whose expression is a bare `Identifier` has its expression replaced by a
`Call` to `print` with that identifier as the single argument.  All
other traversal is the generic visitor of src/ast/visitor.h, which
rewrites nothing itself; note that the generic `visit(For)` only visits
the loop's declaration and iterated expression, not its body
statements. -/

mutual

/-- One step of the auto-print traversal on a statement. -/
def autoPrintStmt : Stmt → Stmt
  | .exprStmt e =>
    match e with
    | .identifier ident => .exprStmt (.call "print" [.identifier ident])
    | e' => .exprStmt e'
  | .block stmts => .block (autoPrintStmts stmts)
  | .ifStmt cond ifBlock elseBlock =>
    .ifStmt cond (autoPrintStmts ifBlock) (autoPrintStmts elseBlock)
  | .unroll e body => .unroll e (autoPrintStmts body)
  | .whileStmt cond body => .whileStmt cond (autoPrintStmts body)
  | .config stmts => .config (autoPrintStmts stmts)
  | s => s

/-- Element-wise traversal of a statement list. -/
def autoPrintStmts : List Stmt → List Stmt
  | [] => []
  | s :: rest => autoPrintStmt s :: autoPrintStmts rest

end

/-- The expression directly owned by a statement, if any (the `expr` /
`cond` child slot). -/
def Stmt.ownExpr : Stmt → Option Expr
  | .exprStmt e => some e
  | .assignMap _ _ e => some e
  | .assignVar _ e => some e
  | .assignConfigVar _ e => some e
  | .ifStmt cond _ _ => some cond
  | .unroll e _ => some e
  | .jump _ rv => rv
  | .whileStmt cond _ => some cond
  | .forStmt _ e _ => some e
  | _ => none

/-! ## Portability (AOT) analysis (src/ast/passes/portability_analyser.cpp)

`PortabilityAnalyser` is a read-only `Visitor<PortabilityAnalyser>`
accumulating diagnostics into `err_`; it overrides
`PositionalParameter`, `Builtin`, `Call`, `Cast` and `AttachPoint` and
never replaces a node.  We translate the traversal in rewriter style —
each function returns the node as left in the tree plus the errors
appended to `err_` — so that "the tree is not modified" is a provable
property rather than a modelling assumption. -/

/-- `ProbeType` from types.h. -/
inductive ProbeType where
  | invalid
  | special
  | kprobe
  | kretprobe
  | uprobe
  | uretprobe
  | usdt
  | tracepoint
  | profile
  | interval
  | software
  | hardware
  | watchpoint
  | asyncwatchpoint
  | fentry
  | fexit
  | iter
  | rawtracepoint
deriving DecidableEq, Repr

/-- Modelled from the spec: `probetype(provider)` is declared in
types.h, which is not part of this snapshot; the portability pass uses
it to classify an attach point by its provider name ("source-level
match patterns such as \"function entry on module X\"").  Providers are
mapped by their canonical bpftrace names, anything unknown being
invalid. -/
def probetype (provider : String) : ProbeType :=
  if provider == "kprobe" then .kprobe
  else if provider == "kretprobe" then .kretprobe
  else if provider == "uprobe" then .uprobe
  else if provider == "uretprobe" then .uretprobe
  else if provider == "usdt" then .usdt
  else if provider == "tracepoint" then .tracepoint
  else if provider == "profile" then .profile
  else if provider == "interval" then .interval
  else if provider == "software" then .software
  else if provider == "hardware" then .hardware
  else if provider == "watchpoint" then .watchpoint
  else if provider == "asyncwatchpoint" then .asyncwatchpoint
  else if provider == "fentry" then .fentry
  else if provider == "fexit" then .fexit
  else if provider == "iter" then .iter
  else if provider == "rawtracepoint" then .rawtracepoint
  else .invalid

mutual

/-- Portability traversal of one expression.  Overridden cases:
`PositionalParameter` always errors; `Builtin` errors on `curtask`;
`Call` visits its arguments and then errors on `kaddr`/`uaddr`/
`cgroupid`; `Cast` visits its operand and then always errors.  All
other cases are the generic child-slot traversal. -/
def portExpr : Expr → Expr × List String
  | .integer n => (.integer n, [])
  | .positionalParameter n =>
    (.positionalParameter n, ["AOT does not yet support positional parameters"])
  | .stringLit s => (.stringLit s, [])
  | .stackMode m => (.stackMode m, [])
  | .identifier i => (.identifier i, [])
  | .builtin ident =>
    (.builtin ident,
     if ident == "curtask" then ["AOT does not yet support accessing `curtask`"] else [])
  | .call func vargs =>
    let r := portExprs vargs
    (.call func r.1,
     r.2 ++ (if func == "kaddr" || func == "uaddr" || func == "cgroupid" then
               ["AOT does not yet support " ++ func ++ "()"]
             else []))
  | .sizeofExpr arg =>
    let r := portExprOpt arg
    (.sizeofExpr r.1, r.2)
  | .offsetofExpr arg field =>
    let r := portExprOpt arg
    (.offsetofExpr r.1 field, r.2)
  | .mapAcc ident keyExpr =>
    let r := portExprOpt keyExpr
    (.mapAcc ident r.1, r.2)
  | .varAcc i => (.varAcc i, [])
  | .binop left op right =>
    let l := portExpr left
    let r := portExpr right
    (.binop l.1 op r.1, l.2 ++ r.2)
  | .unop op e =>
    let r := portExpr e
    (.unop op r.1, r.2)
  | .fieldAcc e field =>
    let r := portExpr e
    (.fieldAcc r.1 field, r.2)
  | .arrayAcc e indexpr =>
    let r := portExpr e
    let ri := portExpr indexpr
    (.arrayAcc r.1 ri.1, r.2 ++ ri.2)
  | .cast ty e =>
    let r := portExpr e
    (.cast ty r.1, r.2 ++ ["AOT does not yet support struct casts"])
  | .tuple elems =>
    let r := portExprs elems
    (.tuple r.1, r.2)
  | .ternary cond left right =>
    let c := portExpr cond
    let l := portExpr left
    let r := portExpr right
    (.ternary c.1 l.1 r.1, c.2 ++ l.2 ++ r.2)

/-- Element-wise traversal of an expression list. -/
def portExprs : List Expr → List Expr × List String
  | [] => ([], [])
  | e :: rest =>
    let r := portExpr e
    let rs := portExprs rest
    (r.1 :: rs.1, r.2 ++ rs.2)

/-- Traversal of an optional expression child slot. -/
def portExprOpt : Option Expr → Option Expr × List String
  | none => (none, [])
  | some e =>
    let r := portExpr e
    (some r.1, r.2)

/-- Generic traversal of one statement (no statement visit is
overridden by the portability pass).  Child slots are visited in their
declaration order; the generic `visit(For)` visits only the declaration
and the iterated expression, not the body. -/
def portStmt : Stmt → Stmt × List String
  | .exprStmt e =>
    let r := portExpr e
    (.exprStmt r.1, r.2)
  | .varDecl i => (.varDecl i, [])
  | .assignMap mapIdent mapKey e =>
    let k := portExprOpt mapKey
    let r := portExpr e
    (.assignMap mapIdent k.1 r.1, k.2 ++ r.2)
  | .assignVar varIdent e =>
    let r := portExpr e
    (.assignVar varIdent r.1, r.2)
  | .assignConfigVar configVar e =>
    let r := portExpr e
    (.assignConfigVar configVar r.1, r.2)
  | .block stmts =>
    let r := portStmts stmts
    (.block r.1, r.2)
  | .ifStmt cond ifBlock elseBlock =>
    let c := portExpr cond
    let t := portStmts ifBlock
    let e := portStmts elseBlock
    (.ifStmt c.1 t.1 e.1, c.2 ++ t.2 ++ e.2)
  | .unroll e body =>
    let r := portExpr e
    let b := portStmts body
    (.unroll r.1 b.1, r.2 ++ b.2)
  | .jump ident returnValue =>
    let r := portExprOpt returnValue
    (.jump ident r.1, r.2)
  | .whileStmt cond body =>
    let c := portExpr cond
    let b := portStmts body
    (.whileStmt c.1 b.1, c.2 ++ b.2)
  | .forStmt decl e body =>
    let r := portExpr e
    (.forStmt decl r.1 body, r.2)
  | .config stmts =>
    let r := portStmts stmts
    (.config r.1, r.2)

/-- Element-wise traversal of a statement list. -/
def portStmts : List Stmt → List Stmt × List String
  | [] => ([], [])
  | s :: rest =>
    let r := portStmt s
    let rs := portStmts rest
    (r.1 :: rs.1, r.2 ++ rs.2)

end

/-- `PortabilityAnalyser::visit(AttachPoint)`: USDT probes and
(async) watchpoint probes are AOT-incompatible. -/
def portAttachPoint (ap : AttachPoint) : AttachPoint × List String :=
  let t := probetype ap.provider
  if t == ProbeType.usdt then
    (ap, ["AOT does not yet support USDT probes"])
  else if t == ProbeType.watchpoint || t == ProbeType.asyncwatchpoint then
    (ap, ["AOT does not yet support watchpoint probes"])
  else
    (ap, [])

/-- Element-wise traversal of the attach-point list of a probe. -/
def portAttachPoints : List AttachPoint → List AttachPoint × List String
  | [] => ([], [])
  | ap :: rest =>
    let r := portAttachPoint ap
    let rs := portAttachPoints rest
    (r.1 :: rs.1, r.2 ++ rs.2)

/-- Generic `visit(Probe)`: attach points, then predicate, then body
block. -/
def portProbe (p : Probe) : Probe × List String :=
  let aps := portAttachPoints p.attachPoints
  let pr := portExprOpt p.pred
  let b := portStmts p.blockStmts
  ({ attachPoints := aps.1, pred := pr.1, blockStmts := b.1 }, aps.2 ++ pr.2 ++ b.2)

/-- Element-wise traversal of the probe list. -/
def portProbes : List Probe → List Probe × List String
  | [] => ([], [])
  | p :: rest =>
    let r := portProbe p
    let rs := portProbes rest
    (r.1 :: rs.1, r.2 ++ rs.2)

/-- Generic `visit(Subprog)`: argument declarations (leaves), then the
body statements. -/
def portSubprog (sp : Subprog) : Subprog × List String :=
  let b := portStmts sp.stmts
  ({ sp with stmts := b.1 }, b.2)

/-- Element-wise traversal of the subprogram list. -/
def portSubprogs : List Subprog → List Subprog × List String
  | [] => ([], [])
  | sp :: rest =>
    let r := portSubprog sp
    let rs := portSubprogs rest
    (r.1 :: rs.1, r.2 ++ rs.2)

/-- `PortabilityAnalyser` applied to a whole program (generic
`visit(Program)`: functions, then probes, then the config block). -/
def portProgram (p : Program) : Program × List String :=
  let fs := portSubprogs p.functions
  let ps := portProbes p.probes
  let cs := portStmts p.configStmts
  ({ functions := fs.1, probes := ps.1, configStmts := cs.1 }, fs.2 ++ ps.2 ++ cs.2)

/-- Whether a program contains a USDT attach point. -/
def Program.hasUsdtAttachPoint (p : Program) : Bool :=
  p.probes.any (fun pr => pr.attachPoints.any (fun ap => probetype ap.provider == ProbeType.usdt))

/-! ## Node counting (src/ast/passes/config_analyser.h, `CreateCounterPass`)

`NodeCounter` increments a counter in `preVisit` once per visited node;
`CreateCounterPass` compares the tally against the configured
`max_ast_nodes_` limit. -/

mutual

/-- Nodes in one expression subtree (each node class instance counts
once). -/
def countExpr : Expr → Nat
  | .integer _ => 1
  | .positionalParameter _ => 1
  | .stringLit _ => 1
  | .stackMode _ => 1
  | .identifier _ => 1
  | .builtin _ => 1
  | .call _ vargs => 1 + countExprs vargs
  | .sizeofExpr arg => 1 + countExprOpt arg
  | .offsetofExpr arg _ => 1 + countExprOpt arg
  | .mapAcc _ keyExpr => 1 + countExprOpt keyExpr
  | .varAcc _ => 1
  | .binop left _ right => 1 + countExpr left + countExpr right
  | .unop _ e => 1 + countExpr e
  | .fieldAcc e _ => 1 + countExpr e
  | .arrayAcc e indexpr => 1 + countExpr e + countExpr indexpr
  | .cast _ e => 1 + countExpr e
  | .tuple elems => 1 + countExprs elems
  | .ternary cond left right => 1 + countExpr cond + countExpr left + countExpr right

/-- Nodes in an expression list. -/
def countExprs : List Expr → Nat
  | [] => 0
  | e :: rest => countExpr e + countExprs rest

/-- Nodes in an optional expression slot. -/
def countExprOpt : Option Expr → Nat
  | none => 0
  | some e => countExpr e

/-- Nodes in one statement subtree. -/
def countStmt : Stmt → Nat
  | .exprStmt e => 1 + countExpr e
  | .varDecl _ => 1
  | .assignMap _ mapKey e => 1 + countExprOpt mapKey + countExpr e
  | .assignVar _ e => 1 + countExpr e
  | .assignConfigVar _ e => 1 + countExpr e
  | .block stmts => 1 + countStmts stmts
  | .ifStmt cond ifBlock elseBlock => 1 + countExpr cond + countStmts ifBlock + countStmts elseBlock
  | .unroll e body => 1 + countExpr e + countStmts body
  | .jump _ returnValue => 1 + countExprOpt returnValue
  | .whileStmt cond body => 1 + countExpr cond + countStmts body
  | .forStmt _ e body => 1 + countExpr e + countStmts body
  | .config stmts => 1 + countStmts stmts

/-- Nodes in a statement list. -/
def countStmts : List Stmt → Nat
  | [] => 0
  | s :: rest => countStmt s + countStmts rest

end

/-- Nodes in a whole program: the `Program` node, each `Subprog` with
its `SubprogArg` children and body, each `Probe` with its attach
points, predicate and body block. -/
def countNodes (p : Program) : Nat :=
  1 + (p.functions.map (fun sp => 1 + sp.args.length + countStmts sp.stmts)).sum
    + (p.probes.map (fun pr =>
        1 + pr.attachPoints.length + countExprOpt pr.pred + 1 + countStmts pr.blockStmts)).sum
    + countStmts p.configStmts

/-- `PassResult` as produced by the counter pass
(`PassResult::Error(pass, msg)` / `PassResult::Success()`). -/
inductive PassResult where
  | success
  | error (pass : String) (msg : String)
deriving DecidableEq, Repr

/-- `CreateCounterPass` from src/ast/passes/config_analyser.h: measure
the node count, and when `node_count >= max` log one error naming both
the measured count and the limit and fail the pass.  The second
component is the sequence of `LOG(ERROR)` messages emitted. -/
def createCounterPass (p : Program) (maxNodes : Nat) : PassResult × List String :=
  let node_count := countNodes p
  if node_count ≥ maxNodes then
    (.error "NodeCounter" "node count exceeded",
     ["node count (" ++ toString node_count ++ ") exceeds the limit ("
        ++ toString maxNodes ++ ")"])
  else
    (.success, [])

/-! ## Diagnostics and results (src/ast/error.h) -/

/-- `ErrorOr<T>`: either a value or a list of error diagnostics
(`result_ : std::variant<T, Diagnostics>`), always paired with a list
of warnings. -/
structure ErrorOr (α : Type) where
  result : α ⊕ List Diagnostic
  warnings : List Diagnostic

/-- `ErrorOr::ok()`. -/
def ErrorOr.ok (e : ErrorOr α) : Bool :=
  match e.result with
  | .inl _ => true
  | .inr _ => false

/-- The error list of a failed result (`ErrorOr::errors()`); empty when
the result holds a value. -/
def ErrorOr.errorList (e : ErrorOr α) : List Diagnostic :=
  match e.result with
  | .inl _ => []
  | .inr errs => errs

/-- The two-argument merging constructor
`ErrorOr(ErrorOr&& first, ErrorOr&& second)` of src/ast/error.h,
translated faithfully.  It initializes from `first`, then:

* `if (ok() && !second.ok())` adopts `second`'s errors;
* the following branch is guarded by `!ok && !second.ok()` — `!ok`
  negates the member-function reference rather than calling it, so the
  branch that would concatenate the two error lists can never run;
* finally `second`'s warnings are appended to `first`'s. -/
def ErrorOr.merge (first second : ErrorOr α) : ErrorOr α :=
  let result :=
    match first.result, second.result with
    | .inl _, .inr errs => Sum.inr errs
    | r, _ => r
  { result := result, warnings := first.warnings ++ second.warnings }

/-- `Success(warnings)` from src/ast/error.h. -/
def successWith (w : List Diagnostic) : ErrorOr Unit :=
  { result := .inl (), warnings := w }

/-! ## Pass manager (src/ast/pass_manager.cpp) -/

/-- A registered pass: its name and the capability type ids it declares
as inputs and outputs (`Pass::inputs()` / `Pass::outputs()`). -/
structure Pass where
  name : String
  inputs : List Nat
  outputs : List Nat

/-- The scheduler's registration state: the registered passes and the
keys of the `outputs_` map (which output types are already produced by
some registered pass). -/
structure PassManagerState where
  passes : List Pass
  produced : List Nat

/-- An empty pass manager. -/
def PassManagerState.empty : PassManagerState := { passes := [], produced := [] }

/-- The output-registration loop of `PassManager::add`: for each output
type in order, `LOG(BUG)` (modelled as `none`) if it is already in
`outputs_`, otherwise register it. -/
def registerOutputs (produced : List Nat) : List Nat → Option (List Nat)
  | [] => some produced
  | o :: rest =>
    if produced.contains o then none
    else registerOutputs (produced ++ [o]) rest

/-- `PassManager::add` from src/ast/pass_manager.cpp: check that every
declared input is already produced by an earlier-registered pass
(`LOG(BUG)` — fatal, modelled as `none` — otherwise), then register the
outputs rejecting duplicates, then append the pass. -/
def PassManagerState.add (s : PassManagerState) (p : Pass) : Option PassManagerState :=
  if p.inputs.all (fun i => s.produced.contains i) then
    match registerOutputs s.produced p.outputs with
    | some produced2 => some { passes := s.passes ++ [p], produced := produced2 }
    | none => none
  else
    none

/-- `PassManager::foreach` from src/ast/pass_manager.cpp, given the
per-pass results the callback produces in registration order.  While a
pass succeeds, its warnings are unwrapped into the accumulator; at the
first failing pass the function returns
`ErrorOrSuccess(err, std::move(warnings))` — the copy constructor takes
the failing result's errors and warnings, then appends the accumulated
warnings of the earlier passes.  If all passes succeed the result is
`Success(std::move(warnings))`. -/
def foreachGo (warnings : List Diagnostic) : List (ErrorOr Unit) → ErrorOr Unit
  | [] => successWith warnings
  | r :: rest =>
    match r.result with
    | .inr errs => { result := .inr errs, warnings := r.warnings ++ warnings }
    | .inl _ => foreachGo (warnings ++ r.warnings) rest

/-- `PassManager::foreach` starting from an empty warning accumulator. -/
def foreachResults (results : List (ErrorOr Unit)) : ErrorOr Unit :=
  foreachGo [] results

/-- The warnings accumulated (in order) by a run of successful passes. -/
def warningsOf (results : List (ErrorOr Unit)) : List Diagnostic :=
  results.foldl (fun acc r => acc ++ r.warnings) []

/-! # Theorems -/

/-! ## C1 — memoization of type-thunk results -/

/-- A thunk whose first evaluation fails ("unknown type", as for an
`Identifier` before `set_type`) and whose later evaluations resolve to
`int64`. -/
def unknownThenInt : Nat → Rval :=
  fun k => if k = 0 then .err "unknown type" else .ty (.intTy 64)

/-- C1 as stated is false: after a first access that produced an error,
the next `valid()` call re-runs the thunk (the memo guard re-enters
whenever the cell holds a `std::string`), and here returns a different
result.  Concretely: the first access to `unknownThenInt` stores the
error, the second access invokes the thunk again (`calls` rises to 2)
and stores `int64`. -/
theorem futureType_error_not_memoized_cex :
    (FutureType.valid unknownThenInt FState.initial).2.result
        = some (.err "unknown type") ∧
    (FutureType.valid unknownThenInt
        (FutureType.valid unknownThenInt FState.initial).2).2.calls = 2 ∧
    (FutureType.valid unknownThenInt
        (FutureType.valid unknownThenInt FState.initial).2).2.result
        = some (.ty (.intTy 64)) ∧
    (FutureType.valid unknownThenInt
          (FutureType.valid unknownThenInt FState.initial).2).2.result
        ≠ (FutureType.valid unknownThenInt FState.initial).2.result := by
  refine ⟨rfl, rfl, rfl, ?_⟩
  intro h
  rw [show (FutureType.valid unknownThenInt
        (FutureType.valid unknownThenInt FState.initial).2).2.result
      = some (.ty (.intTy 64)) from rfl,
     show (FutureType.valid unknownThenInt FState.initial).2.result
      = some (.err "unknown type") from rfl] at h
  injection h with h2
  exact Rval.noConfusion h2

/-- C1 (amended): on a non-re-entrant access, a previously memoized
*successful* result is returned unchanged without invoking the thunk
again; when the memo cell is empty or holds an error, the access
(re-)runs the thunk and stores its fresh result. -/
theorem futureType_memoization :
    ∀ (fn : Nat → Rval) (s : FState), s.running = false →
      (∀ t, s.result = some (.ty t) → FutureType.valid fn s = (true, s)) ∧
      ((s.result = none ∨ ∃ m, s.result = some (.err m)) →
        (FutureType.valid fn s).2.result = some (fn s.calls) ∧
        (FutureType.valid fn s).2.calls = s.calls + 1) := by
  intro fn s hrun
  constructor
  · intro t ht
    simp [FutureType.valid, hrun, ht]
  · intro hcase
    rcases hcase with hnone | ⟨m, herr⟩
    · simp [FutureType.valid, hrun, hnone]
    · simp [FutureType.valid, hrun, herr]

/-- Witness for C1's amended theorem at concrete inputs: a memoized
`int64` is returned untouched, and a fresh thunk is evaluated on first
access. -/
theorem futureType_memoization_witness :
    FutureType.valid (fun _ => .ty (.intTy 64))
        { running := false, result := some (.ty (.intTy 64)), calls := 1 } =
      (true, { running := false, result := some (.ty (.intTy 64)), calls := 1 }) ∧
    (FutureType.valid (fun _ => .ty (.intTy 32)) FState.initial).2.result
        = some (.ty (.intTy 32)) ∧
    (FutureType.valid (fun _ => .ty (.intTy 32)) FState.initial).2.calls = 1 :=
  ⟨(futureType_memoization (fun _ => .ty (.intTy 64))
      { running := false, result := some (.ty (.intTy 64)), calls := 1 } rfl).1
      (.intTy 64) rfl,
   (futureType_memoization (fun _ => .ty (.intTy 32)) FState.initial rfl).2
      (Or.inl rfl)⟩

/-! ## C2 — re-entrant (cyclic) thunk access -/

/-- C2: the code is wrong.  A re-entrant access (`running_ == true`,
the state a thunk is in while its own `fn_` is on the stack) executes
`return "recursive type inferrence; cannot be resolved";` inside the
`bool`-returning `valid()`; the string literal converts to `true`, so
the access *claims the type resolved successfully* while the memo cell
still holds nothing — no "cyclic type dependency" error is produced
for `error()` to report.  The surrounding comment ("Just bail on this
and return an error") documents the intended behaviour. -/
theorem futureType_reentrant_returns_true :
    FutureType.valid (fun _ => .err "recursive type inferrence; cannot be resolved")
        { running := true, result := none, calls := 0 } =
      (true, { running := true, result := none, calls := 0 }) := rfl

/-! ## C5 — merging two `ErrorOr` results -/

/-- A first-side error diagnostic. -/
def errFirst : Diagnostic := { msg := "first error", loc := none }

/-- A second-side error diagnostic. -/
def errSecond : Diagnostic := { msg := "second error", loc := none }

/-- A warning diagnostic used in merge examples. -/
def warnFirst : Diagnostic := { msg := "first warning", loc := none }

/-- Another warning diagnostic used in merge examples. -/
def warnSecond : Diagnostic := { msg := "second warning", loc := none }

/-- C5: the code is wrong in the both-failed case.  Merging two failed
results keeps only the first side's error list — the concatenation
branch is guarded by `!ok && !second.ok()`, where `!ok` negates the
member-function reference instead of calling it, so it never executes
(contradicting the constructor's own comment, "we aggregate all errors
and warnings from both").  The single-failure cases do behave as the
claim states, including warning aggregation from both sides. -/
theorem errorOr_merge_drops_second_errors :
    (ErrorOr.merge (α := Unit)
        { result := .inr [errFirst], warnings := [warnFirst] }
        { result := .inr [errSecond], warnings := [warnSecond] }).errorList
      = [errFirst] ∧
    [errFirst] ≠ [errFirst, errSecond] ∧
    (ErrorOr.merge (α := Unit)
        { result := .inl (), warnings := [warnFirst] }
        { result := .inr [errSecond], warnings := [warnSecond] })
      = { result := .inr [errSecond], warnings := [warnFirst, warnSecond] } ∧
    (ErrorOr.merge (α := Unit)
        { result := .inr [errFirst], warnings := [warnFirst] }
        { result := .inl (), warnings := [warnSecond] })
      = { result := .inr [errFirst], warnings := [warnFirst, warnSecond] } := by
  refine ⟨rfl, by decide, rfl, rfl⟩

/-! ## C7 — field-access type resolution -/

/-- A record type with a single field `x : int64`. -/
def taskRecord : SizedType := .record "task" [("x", .intTy 64)]

/-- C7: the code is wrong.  The source tests `if (t.HasField(field))`
— with the condition inverted — so accessing the *present* field `x`
of a record yields the "not found" type error, while accessing the
*absent* field `y` falls through to `SizedType::GetField` on a missing
field, which has no defined result (modelled `none`) instead of the
claimed type error.  Only the non-record case behaves as claimed. -/
theorem fieldAccess_inverted_check :
    fieldAccessType (.ty taskRecord) "x"
        = some (.err "field xnot found on type task") ∧
    fieldAccessType (.ty taskRecord) "y" = none ∧
    fieldAccessType (.ty (.intTy 64)) "x"
        = some (.err "field access on non-record type int64") ∧
    fieldAccessType (.err "operand failed") "x" = some (.err "operand failed") := by
  refine ⟨rfl, rfl, rfl, rfl⟩

/-! ## C3 — pass registration checks -/

/-- If some output type is already registered, the output-registration
loop of `PassManager::add` hits the duplicate and fails, wherever the
duplicate sits in the list. -/
theorem registerOutputs_none_of_mem (o : Nat) :
    ∀ (outs produced : List Nat), o ∈ outs → o ∈ produced →
      registerOutputs produced outs = none := by
  intro outs
  induction outs with
  | nil => intro produced ho _; cases ho
  | cons a rest ih =>
    intro produced ho hp
    unfold registerOutputs
    by_cases hmem : a ∈ produced
    · rw [if_pos (List.elem_eq_true_of_mem hmem)]
    · have hc : produced.contains a = false := by simpa using hmem
      rw [hc]
      simp only [Bool.false_eq_true, if_false]
      rcases List.mem_cons.mp ho with h | h
      · exact absurd (h ▸ hp) hmem
      · exact ih (produced ++ [a]) h (List.mem_append_left _ hp)

/-- C3: registration fails fatally (the `LOG(BUG)` path, modelled as
`none`) for a pass requiring an input no earlier pass produces and for
a pass producing an output some earlier pass already produces, while
registering A (produces X) followed by B (requires X) succeeds. -/
theorem passManager_add_registration :
    (∀ (s : PassManagerState) (p : Pass) (i : Nat),
        i ∈ p.inputs → i ∉ s.produced → s.add p = none) ∧
    (∀ (s : PassManagerState) (p : Pass) (o : Nat),
        o ∈ p.outputs → o ∈ s.produced → s.add p = none) ∧
    (∀ x : Nat, ∃ s1,
        PassManagerState.empty.add { name := "A", inputs := [], outputs := [x] } = some s1 ∧
        (s1.add { name := "B", inputs := [x], outputs := [] }).isSome = true) := by
  refine ⟨?_, ?_, ?_⟩
  · intro s p i hi hnotin
    unfold PassManagerState.add
    have hall : p.inputs.all (fun j => s.produced.contains j) = false := by
      refine List.all_eq_false.mpr ⟨i, hi, ?_⟩
      simpa using hnotin
    rw [hall]
    simp only [Bool.false_eq_true, if_false]
  · intro s p o ho hin
    unfold PassManagerState.add
    by_cases hall : p.inputs.all (fun j => s.produced.contains j) = true
    · rw [if_pos hall, registerOutputs_none_of_mem o p.outputs s.produced ho hin]
    · rw [if_neg hall]
  · intro x
    refine ⟨{ passes := [{ name := "A", inputs := [], outputs := [x] }],
              produced := [x] }, ?_, ?_⟩
    · simp [PassManagerState.add, PassManagerState.empty, registerOutputs]
    · simp [PassManagerState.add, registerOutputs]

/-- Witness for C3 at concrete inputs: registering B (requires type 0)
into an empty manager fails; registering a second producer of type 0
fails; A-then-B succeeds. -/
theorem passManager_add_registration_witness :
    PassManagerState.empty.add { name := "B", inputs := [0], outputs := [] } = none ∧
    PassManagerState.add { passes := [], produced := [0] }
        { name := "A2", inputs := [], outputs := [0] } = none ∧
    (∃ s1, PassManagerState.empty.add { name := "A", inputs := [], outputs := [0] } = some s1 ∧
        (s1.add { name := "B", inputs := [0], outputs := [] }).isSome = true) :=
  ⟨passManager_add_registration.1 PassManagerState.empty
      { name := "B", inputs := [0], outputs := [] } 0 (by simp) (by simp [PassManagerState.empty]),
   passManager_add_registration.2.1 { passes := [], produced := [0] }
      { name := "A2", inputs := [], outputs := [0] } 0 (by simp) (by simp),
   passManager_add_registration.2.2 0⟩

/-! ## C4 — running passes and aggregating diagnostics -/

/-- A first warning (from the first pass). -/
def warnP1a : Diagnostic := { msg := "pass 1 warning a", loc := some 1 }

/-- A second warning (from the first pass). -/
def warnP1b : Diagnostic := { msg := "pass 1 warning b", loc := some 2 }

/-- A warning from the failing second pass. -/
def warnP2 : Diagnostic := { msg := "pass 2 warning", loc := some 3 }

/-- The failing second pass's error. -/
def errP2 : Diagnostic := { msg := "pass 2 error", loc := some 4 }

/-- C4 as stated is false on the warning order: with P1 succeeding with
2 warnings and P2 failing with 1 error and 1 warning, `foreach` returns
the 1 error and all 3 warnings, but the failing pass's warning comes
*first* (the accumulated earlier warnings are appended after it), not
in emission order. -/
theorem foreach_warning_order_cex :
    (foreachResults
        [{ result := .inl (), warnings := [warnP1a, warnP1b] },
         { result := .inr [errP2], warnings := [warnP2] }]).errorList = [errP2] ∧
    (foreachResults
        [{ result := .inl (), warnings := [warnP1a, warnP1b] },
         { result := .inr [errP2], warnings := [warnP2] }]).warnings
      = [warnP2, warnP1a, warnP1b] ∧
    [warnP2, warnP1a, warnP1b] ≠ [warnP1a, warnP1b, warnP2] := by
  refine ⟨rfl, rfl, by decide⟩

/-- The accumulator form of the C4 execution property. -/
theorem foreachGo_stops (bad : ErrorOr Unit) (hbad : bad.ok = false) :
    ∀ (pre : List (ErrorOr Unit)) (acc : List Diagnostic)
      (rest : List (ErrorOr Unit)), (∀ r ∈ pre, r.ok = true) →
      (foreachGo acc (pre ++ bad :: rest)).result = bad.result ∧
      (foreachGo acc (pre ++ bad :: rest)).warnings
        = bad.warnings ++ pre.foldl (fun a r => a ++ r.warnings) acc := by
  intro pre
  induction pre with
  | nil =>
    intro acc rest _
    match hb : bad.result with
    | .inr errs => simp [foreachGo, hb]
    | .inl _ => rw [ErrorOr.ok, hb] at hbad; cases hbad
  | cons r pre' ih =>
    intro acc rest hok
    have hr : r.ok = true := hok r (List.mem_cons_self r pre')
    match hrr : r.result with
    | .inl _ =>
      simpa [foreachGo, hrr] using
        ih (acc ++ r.warnings) rest (fun q hq => hok q (List.mem_cons_of_mem r hq))
    | .inr _ => rw [ErrorOr.ok, hrr] at hr; cases hr

/-- C4 (amended): execution is in registration order and stops at the
first failing pass; the overall result carries that pass's errors and
every warning of the earlier successful passes, but the failing pass's
own warnings precede the earlier passes' warnings (which keep their
emission order among themselves); later passes do not contribute. -/
theorem foreach_stops_at_first_failure :
    ∀ (pre : List (ErrorOr Unit)) (bad : ErrorOr Unit)
      (rest : List (ErrorOr Unit)),
      (∀ r ∈ pre, r.ok = true) → bad.ok = false →
      (foreachResults (pre ++ bad :: rest)).result = bad.result ∧
      (foreachResults (pre ++ bad :: rest)).warnings
        = bad.warnings ++ warningsOf pre := by
  intro pre bad rest hok hbad
  exact foreachGo_stops bad hbad pre [] rest hok

/-- Witness for C4's amended theorem at the concrete P1/P2 run. -/
theorem foreach_stops_at_first_failure_witness :
    (foreachResults
        [{ result := .inl (), warnings := [warnP1a, warnP1b] },
         { result := .inr [errP2], warnings := [warnP2] }]).result
      = Sum.inr [errP2] ∧
    (foreachResults
        [{ result := .inl (), warnings := [warnP1a, warnP1b] },
         { result := .inr [errP2], warnings := [warnP2] }]).warnings
      = [warnP2] ++ warningsOf [{ result := .inl (), warnings := [warnP1a, warnP1b] }] :=
  foreach_stops_at_first_failure
    [{ result := .inl (), warnings := [warnP1a, warnP1b] }]
    { result := .inr [errP2], warnings := [warnP2] } []
    (by intro r hr; simp at hr; subst hr; rfl) rfl

/-! ## C6 — return-path analysis -/

mutual

/-- The analyser's statement dispatch computes exactly the
specification's structural property. -/
theorem returnPathStmt_eq_spec : (s : Stmt) → returnPathStmt s = specStmtReturns s
  | .jump ident rv => by cases ident <;> rfl
  | .ifStmt cond ifBlock elseBlock => by
    rw [returnPathStmt, specStmtReturns,
        returnPathStmts_eq_spec ifBlock, returnPathStmts_eq_spec elseBlock]
    cases specStmtsReturn ifBlock <;> cases specStmtsReturn elseBlock <;> rfl
  | .exprStmt _ => rfl
  | .varDecl _ => rfl
  | .assignMap _ _ _ => rfl
  | .assignVar _ _ => rfl
  | .assignConfigVar _ _ => rfl
  | .block _ => rfl
  | .unroll _ _ => rfl
  | .whileStmt _ _ => rfl
  | .forStmt _ _ _ => rfl
  | .config _ => rfl

/-- The analyser's loop over a statement list computes exactly the
"any statement returns" rule. -/
theorem returnPathStmts_eq_spec : (l : List Stmt) → returnPathStmts l = specStmtsReturn l
  | [] => rfl
  | s :: rest => by
    rw [returnPathStmts, specStmtsReturn,
        returnPathStmt_eq_spec s, returnPathStmts_eq_spec rest]

end

/-- C6: `ReturnPathAnalyser::visit(Subprog)` accepts a subprogram
exactly when it is void-typed or its body satisfies the structural
return-path property (a return jump satisfies it, a statement list
satisfies it if any of its statements does, an if-statement satisfies
it only if both branches do, nothing else does), and on rejection emits
the single location-tagged "Not all code paths returned a value"
diagnostic. -/
theorem returnPath_subprog_correct :
    ∀ sp : Subprog,
      returnPathSubprog sp =
        (sp.returnType.isVoidTy || specStmtsReturn sp.stmts,
         if sp.returnType.isVoidTy || specStmtsReturn sp.stmts then []
         else [{ msg := "Not all code paths returned a value", loc := some sp.loc }]) := by
  intro sp
  unfold returnPathSubprog
  rw [returnPathStmts_eq_spec]
  cases hv : sp.returnType.isVoidTy <;> cases hr : specStmtsReturn sp.stmts <;> simp

/-! ## C8 — the node-count limiting pass -/

/-- A one-probe program (a `kprobe` probe with an empty body): 4 nodes
(the program, the probe, its attach point, its body block). -/
def smallProgram : Program :=
  { functions := [],
    probes := [{ attachPoints := [{ provider := "kprobe" }], pred := none,
                 blockStmts := [] }] }

/-- C8 as stated is false at the boundary: the source tests
`if (node_count >= max)`, so a program whose node count *equals* the
configured maximum — and therefore does not exceed it — still fails the
pass. -/
theorem counterPass_boundary_cex :
    countNodes smallProgram = 4 ∧
    ¬ countNodes smallProgram > 4 ∧
    (createCounterPass smallProgram 4).1 = .error "NodeCounter" "node count exceeded" ∧
    (createCounterPass smallProgram 4).2
      = ["node count (4) exceeds the limit (4)"] := by
  refine ⟨rfl, by decide, rfl, rfl⟩

/-- C8 (amended): the node-count pass fails exactly when the measured
node count is at least (`>=`, not strictly greater than) the configured
maximum, logging one error that carries both the measured count and the
limit; it succeeds whenever the count is strictly below the maximum. -/
theorem counterPass_threshold :
    ∀ (p : Program) (maxNodes : Nat),
      (countNodes p ≥ maxNodes →
        createCounterPass p maxNodes =
          (.error "NodeCounter" "node count exceeded",
           ["node count (" ++ toString (countNodes p) ++ ") exceeds the limit ("
              ++ toString maxNodes ++ ")"])) ∧
      (countNodes p < maxNodes →
        createCounterPass p maxNodes = (.success, [])) := by
  intro p maxNodes
  constructor
  · intro h
    unfold createCounterPass
    rw [if_pos h]
  · intro h
    unfold createCounterPass
    rw [if_neg (Nat.not_le_of_lt h)]

/-- Witness for C8's amended theorem at the concrete program: with the
limit one above the node count the pass succeeds, at the node count it
fails with both numbers in the message. -/
theorem counterPass_threshold_witness :
    createCounterPass smallProgram 5 = (.success, []) ∧
    createCounterPass smallProgram 4 =
      (.error "NodeCounter" "node count exceeded",
       ["node count (4) exceeds the limit (4)"]) :=
  ⟨(counterPass_threshold smallProgram 5).2 (by decide),
   (counterPass_threshold smallProgram 4).1 (by decide)⟩

/-! ## C10 — the auto-print rewrite -/

/-- C10: an expression-statement holding a bare identifier becomes a
call to `print` with that identifier as single argument; an
expression-statement holding anything else keeps its expression; every
other statement kind keeps its own expression slot untouched. -/
theorem autoPrint_rewrites_bare_identifiers :
    (∀ ident : String,
        autoPrintStmt (.exprStmt (.identifier ident)) =
          .exprStmt (.call "print" [.identifier ident])) ∧
    (∀ e : Expr, (∀ ident, e ≠ .identifier ident) →
        autoPrintStmt (.exprStmt e) = .exprStmt e) ∧
    (∀ s : Stmt, (∀ e, s ≠ .exprStmt e) →
        (autoPrintStmt s).ownExpr = s.ownExpr) := by
  refine ⟨fun ident => rfl, ?_, ?_⟩
  · intro e hne
    cases e with
    | identifier ident => exact absurd rfl (hne ident)
    | _ => rfl
  · intro s hns
    cases s with
    | exprStmt e => exact absurd rfl (hns e)
    | _ => rfl

/-- Witness for C10 at concrete inputs: an integer expression-statement
is untouched, and a while-statement's condition is untouched. -/
theorem autoPrint_rewrites_bare_identifiers_witness :
    autoPrintStmt (.exprStmt (.integer 7)) = .exprStmt (.integer 7) ∧
    (autoPrintStmt (.whileStmt (.identifier "c") [])).ownExpr
      = (Stmt.whileStmt (.identifier "c") []).ownExpr :=
  ⟨autoPrint_rewrites_bare_identifiers.2.1 (.integer 7)
      (fun _ h => Expr.noConfusion h),
   autoPrint_rewrites_bare_identifiers.2.2 (.whileStmt (.identifier "c") [])
      (fun _ h => Stmt.noConfusion h)⟩

/-! ## C9 — portability analysis -/

mutual

/-- The portability traversal leaves every expression unchanged. -/
theorem portExpr_fst : (e : Expr) → (portExpr e).1 = e
  | .integer _ => rfl
  | .positionalParameter _ => rfl
  | .stringLit _ => rfl
  | .stackMode _ => rfl
  | .identifier _ => rfl
  | .builtin _ => rfl
  | .call func vargs => by
    rw [portExpr]
    simpa using portExprs_fst vargs
  | .sizeofExpr arg => by
    rw [portExpr]
    simpa using portExprOpt_fst arg
  | .offsetofExpr arg field => by
    rw [portExpr]
    simpa using portExprOpt_fst arg
  | .mapAcc ident keyExpr => by
    rw [portExpr]
    simpa using portExprOpt_fst keyExpr
  | .varAcc _ => rfl
  | .binop left op right => by
    rw [portExpr]
    simpa using And.intro (portExpr_fst left) (portExpr_fst right)
  | .unop op e => by
    rw [portExpr]
    simpa using portExpr_fst e
  | .fieldAcc e field => by
    rw [portExpr]
    simpa using portExpr_fst e
  | .arrayAcc e indexpr => by
    rw [portExpr]
    simpa using And.intro (portExpr_fst e) (portExpr_fst indexpr)
  | .cast ty e => by
    rw [portExpr]
    simpa using portExpr_fst e
  | .tuple elems => by
    rw [portExpr]
    simpa using portExprs_fst elems
  | .ternary cond left right => by
    rw [portExpr]
    simpa using And.intro (portExpr_fst cond)
      (And.intro (portExpr_fst left) (portExpr_fst right))

/-- The portability traversal leaves every expression list unchanged. -/
theorem portExprs_fst : (l : List Expr) → (portExprs l).1 = l
  | [] => rfl
  | e :: rest => by
    rw [portExprs]
    simpa using And.intro (portExpr_fst e) (portExprs_fst rest)

/-- The portability traversal leaves every optional expression
unchanged. -/
theorem portExprOpt_fst : (o : Option Expr) → (portExprOpt o).1 = o
  | none => rfl
  | some e => by
    rw [portExprOpt]
    simpa using portExpr_fst e

/-- The portability traversal leaves every statement unchanged. -/
theorem portStmt_fst : (s : Stmt) → (portStmt s).1 = s
  | .exprStmt e => by
    rw [portStmt]
    simpa using portExpr_fst e
  | .varDecl _ => rfl
  | .assignMap mapIdent mapKey e => by
    rw [portStmt]
    simpa using And.intro (portExprOpt_fst mapKey) (portExpr_fst e)
  | .assignVar varIdent e => by
    rw [portStmt]
    simpa using portExpr_fst e
  | .assignConfigVar configVar e => by
    rw [portStmt]
    simpa using portExpr_fst e
  | .block stmts => by
    rw [portStmt]
    simpa using portStmts_fst stmts
  | .ifStmt cond ifBlock elseBlock => by
    rw [portStmt]
    simpa using And.intro (portExpr_fst cond)
      (And.intro (portStmts_fst ifBlock) (portStmts_fst elseBlock))
  | .unroll e body => by
    rw [portStmt]
    simpa using And.intro (portExpr_fst e) (portStmts_fst body)
  | .jump ident returnValue => by
    rw [portStmt]
    simpa using portExprOpt_fst returnValue
  | .whileStmt cond body => by
    rw [portStmt]
    simpa using And.intro (portExpr_fst cond) (portStmts_fst body)
  | .forStmt decl e body => by
    rw [portStmt]
    simpa using portExpr_fst e
  | .config stmts => by
    rw [portStmt]
    simpa using portStmts_fst stmts

/-- The portability traversal leaves every statement list unchanged. -/
theorem portStmts_fst : (l : List Stmt) → (portStmts l).1 = l
  | [] => rfl
  | s :: rest => by
    rw [portStmts]
    simpa using And.intro (portStmt_fst s) (portStmts_fst rest)

end

/-- `visit(AttachPoint)` never modifies the attach point. -/
theorem portAttachPoint_fst (ap : AttachPoint) : (portAttachPoint ap).1 = ap := by
  unfold portAttachPoint
  cases probetype ap.provider <;> rfl

/-- The attach-point list is unchanged. -/
theorem portAttachPoints_fst : (l : List AttachPoint) → (portAttachPoints l).1 = l
  | [] => rfl
  | ap :: rest => by
    rw [portAttachPoints]
    simpa using And.intro (portAttachPoint_fst ap) (portAttachPoints_fst rest)

/-- `visit(Probe)` never modifies the probe. -/
theorem portProbe_fst (p : Probe) : (portProbe p).1 = p := by
  unfold portProbe
  simp only
  rw [portAttachPoints_fst, portExprOpt_fst, portStmts_fst]

/-- The probe list is unchanged. -/
theorem portProbes_fst : (l : List Probe) → (portProbes l).1 = l
  | [] => rfl
  | p :: rest => by
    rw [portProbes]
    simpa using And.intro (portProbe_fst p) (portProbes_fst rest)

/-- `visit(Subprog)` never modifies the subprogram. -/
theorem portSubprog_fst (sp : Subprog) : (portSubprog sp).1 = sp := by
  unfold portSubprog
  simp only
  rw [portStmts_fst]

/-- The subprogram list is unchanged. -/
theorem portSubprogs_fst : (l : List Subprog) → (portSubprogs l).1 = l
  | [] => rfl
  | sp :: rest => by
    rw [portSubprogs]
    simpa using And.intro (portSubprog_fst sp) (portSubprogs_fst rest)

/-- A USDT attach point makes `visit(AttachPoint)`'s error list
non-empty, hence the attach-point list's error list non-empty. -/
theorem portAttachPoints_errors_of_usdt :
    ∀ l : List AttachPoint,
      l.any (fun ap => probetype ap.provider == ProbeType.usdt) = true →
      (portAttachPoints l).2 ≠ [] := by
  intro l
  induction l with
  | nil => intro h; cases h
  | cons ap rest ih =>
    intro h hcontra
    rw [portAttachPoints] at hcontra
    simp only at hcontra
    rcases List.append_eq_nil.mp hcontra with ⟨h1, h2⟩
    rw [List.any_cons] at h
    rcases Bool.or_eq_true_iff.mp h with hu | hrest
    · unfold portAttachPoint at h1
      rw [if_pos hu] at h1
      cases h1
    · exact ih hrest h2

/-- A probe with a USDT attach point yields a non-empty error list. -/
theorem portProbe_errors_of_usdt (p : Probe)
    (h : p.attachPoints.any (fun ap => probetype ap.provider == ProbeType.usdt) = true) :
    (portProbe p).2 ≠ [] := by
  unfold portProbe
  simp only
  intro hcontra
  rcases List.append_eq_nil.mp hcontra with ⟨h1, _⟩
  rcases List.append_eq_nil.mp h1 with ⟨h2, _⟩
  exact portAttachPoints_errors_of_usdt p.attachPoints h h2

/-- A probe list containing a USDT probe yields a non-empty error
list. -/
theorem portProbes_errors_of_usdt :
    ∀ l : List Probe,
      l.any (fun pr => pr.attachPoints.any
        (fun ap => probetype ap.provider == ProbeType.usdt)) = true →
      (portProbes l).2 ≠ [] := by
  intro l
  induction l with
  | nil => intro h; cases h
  | cons p rest ih =>
    intro h hcontra
    rw [portProbes] at hcontra
    simp only at hcontra
    rcases List.append_eq_nil.mp hcontra with ⟨h1, h2⟩
    rw [List.any_cons] at h
    rcases Bool.or_eq_true_iff.mp h with hp | hrest
    · exact portProbe_errors_of_usdt p hp h1
    · exact ih hrest h2

/-- A program exhibiting two distinct AOT violations: a probe whose
attach point is a USDT probe and whose body uses a positional
parameter. -/
def aotViolatingProgram : Program :=
  { functions := [],
    probes := [{ attachPoints := [{ provider := "usdt", target := "./bin", func := "f" }],
                 pred := none,
                 blockStmts := [.exprStmt (.positionalParameter 1)] }] }

/-- C9: the portability analysis leaves the syntax tree unmodified for
every program; any program containing a USDT attach point yields a
non-empty error list; and on a program with two violations (a USDT
attach point and a positional parameter) it accumulates one diagnostic
per violation, in traversal order, instead of stopping at the first. -/
theorem portability_accumulates_and_preserves :
    (∀ p : Program, (portProgram p).1 = p) ∧
    (∀ p : Program, p.hasUsdtAttachPoint = true → (portProgram p).2 ≠ []) ∧
    (portProgram aotViolatingProgram).2
      = ["AOT does not yet support USDT probes",
         "AOT does not yet support positional parameters"] := by
  refine ⟨?_, ?_, rfl⟩
  · intro p
    unfold portProgram
    simp only
    rw [portSubprogs_fst, portProbes_fst, portStmts_fst]
  · intro p h
    unfold portProgram
    simp only
    intro hcontra
    rcases List.append_eq_nil.mp hcontra with ⟨h1, _⟩
    rcases List.append_eq_nil.mp h1 with ⟨_, h2⟩
    exact portProbes_errors_of_usdt p.probes h h2

/-- Witness for C9 at the concrete two-violation program. -/
theorem portability_accumulates_and_preserves_witness :
    (portProgram aotViolatingProgram).1 = aotViolatingProgram ∧
    (portProgram aotViolatingProgram).2 ≠ [] :=
  ⟨portability_accumulates_and_preserves.1 aotViolatingProgram,
   portability_accumulates_and_preserves.2.1 aotViolatingProgram rfl⟩

end Bpftrace
